import Mathlib

/-!
Verification of the s-expression interpreter in `lisp.py`: tokenizer,
recursive-descent parser and environment-threading evaluator.

The Python source is shallowly embedded below.  Python exceptions become
explicit error values; the host-level recursion of `eval`/`eval_env` is
bounded by an explicit fuel parameter (Python's call stack plays that role;
running out of fuel is the analogue of `RecursionError`).
-/

namespace Lisp

/-- The expression model of `lisp.py`: `Atom` (a text token, lines 31-42)
or `Expression` (an ordered sequence of expressions, lines 45-58).
Structural equality mirrors `Atom.__eq__`/`Expression.__eq__`, which
compare by value and return `False` across the two classes. -/
inductive Sexp where
  | atom : String → Sexp
  | list : List Sexp → Sexp

mutual

/-- Structural equality on expressions, mirroring `Atom.__eq__`
(lines 36-39) and `Expression.__eq__` (lines 52-55): atoms compare by
their text, expressions compare item by item, and an atom never equals
an expression. -/
def sexpBEq : Sexp → Sexp → Bool
  | .atom x, .atom y => x == y
  | .list xs, .list ys => sexpListBEq xs ys
  | _, _ => false

/-- Item-by-item equality of expression item lists (Python list `==`). -/
def sexpListBEq : List Sexp → List Sexp → Bool
  | [], [] => true
  | a :: as1, b :: bs => sexpBEq a b && sexpListBEq as1 bs
  | _, _ => false

end

mutual

theorem sexpBEq_iff : ∀ (a b : Sexp), sexpBEq a b = true ↔ a = b
  | .atom x, .atom y => by simp [sexpBEq]
  | .atom x, .list ys => by simp [sexpBEq]
  | .list xs, .atom y => by simp [sexpBEq]
  | .list xs, .list ys => by
      rw [sexpBEq, sexpListBEq_iff xs ys]
      simp

theorem sexpListBEq_iff : ∀ (xs ys : List Sexp), sexpListBEq xs ys = true ↔ xs = ys
  | [], [] => by simp [sexpListBEq]
  | [], _ :: _ => by simp [sexpListBEq]
  | _ :: _, [] => by simp [sexpListBEq]
  | a :: as1, b :: bs => by
      rw [sexpListBEq, Bool.and_eq_true, sexpBEq_iff a b, sexpListBEq_iff as1 bs]
      simp

end

instance : DecidableEq Sexp := fun a b => decidable_of_iff (sexpBEq a b = true) (sexpBEq_iff a b)

/-- The exceptions the Python code can raise, by kind.
`unboundAtom`/`unknownCommand` are the two `LispRunTimeError` raises
(lines 137 and 233); `lispParseEmpty` is `LispParseError('Empty input')`
(line 104); `assertFail` is any failing `assert`; `indexErr`, `valueErr`,
`attrErr` and `typeErr` are the host IndexError (e.g. `[][0]`),
ValueError (unpacking a wrong-length list), AttributeError (`.items` on
an `Atom`) and TypeError (tuple-unpacking a non-pair return value);
`fuelOut` models host stack exhaustion. -/
inductive Err where
  | lispParseEmpty : Err
  | unboundAtom : Sexp → Err
  | unknownCommand : Sexp → Err
  | assertFail : Err
  | indexErr : Err
  | valueErr : Err
  | attrErr : Err
  | typeErr : Err
  | fuelOut : Err
deriving DecidableEq

/-- Outcome of `eval_env` (lines 140-233).  Besides returning a
`(value, environment)` pair or raising, the function can *return* a
`LispRunTimeError` object as an ordinary value (line 231 uses `return`
where the rest of the file uses `raise`); `retExn` records that case,
carrying the offending callable head. -/
inductive EvalRes where
  | ok : Sexp → Sexp → EvalRes
  | retExn : Sexp → EvalRes
  | err : Err → EvalRes
deriving DecidableEq

/-- The loop of `lookup` (lines 133-137): scan the environment's pairs in
order; each visited pair must be an `Expression` of exactly two items
(`assert len(pair.items) == 2`, and `.items` on an `Atom` is an
AttributeError); return the second item of the first pair whose first
item equals the atom, else raise `LispRunTimeError`. -/
def lookupPairs (a : Sexp) : List Sexp → Except Err Sexp
  | [] => .error (.unboundAtom a)
  | p :: rest =>
    match p with
    | .atom _ => .error .attrErr
    | .list [k, v] => if k = a then .ok v else lookupPairs a rest
    | .list _ => .error .assertFail

/-- `lookup(atom, env)` (lines 131-137): `assert isinstance(atom, Atom)`,
then scan `env.items` (AttributeError if `env` is an `Atom`). -/
def lookup (a env : Sexp) : Except Err Sexp :=
  match a with
  | .list _ => .error .assertFail
  | .atom _ =>
    match env with
    | .atom _ => .error .attrErr
    | .list pairs => lookupPairs a pairs

/-- `eval` (lines 125-128) does `result, new_env = eval_env(code, env)` and
returns `result`.  Unpacking a returned exception object is a host
TypeError; a raised exception propagates. -/
def unpackEval : EvalRes → Except Err Sexp
  | .ok v _ => .ok v
  | .retExn _ => .error .typeErr
  | .err e => .error e

/-- The `cond` loop (lines 194-203): for each `(p e)` pair in order,
assert it is a two-item `Expression`, evaluate the predicate *and* the
result expression, and return the result value as soon as the predicate
value equals the atom `t`; if no predicate matched, return the empty
list.  `ev` is `eval` in the current environment. -/
def condLoop (ev : Sexp → Except Err Sexp) (env : Sexp) : List Sexp → EvalRes
  | [] => .ok (.list []) env
  | p :: rest =>
    match p with
    | .atom _ => .err .assertFail
    | .list [pred, res] =>
      match ev pred with
      | .error e => .err e
      | .ok v1 =>
        match ev res with
        | .error e => .err e
        | .ok v2 =>
          if v1 = .atom "t" then .ok v2 env else condLoop ev env rest
    | .list _ => .err .assertFail

/-- The argument-binding comprehension of lambda application
(lines 224-227): zip parameters with argument expressions, evaluate each
argument in the caller's environment (left to right, errors propagate)
and build the two-item binding pairs. -/
def buildArgEnv (ev : Sexp → Except Err Sexp) : List Sexp → List Sexp → Except Err (List Sexp)
  | [], _ => .ok []
  | _, [] => .ok []
  | p :: ps, a :: rest =>
    match ev a with
    | .error e => .error e
    | .ok v =>
      match buildArgEnv ev ps rest with
      | .error e => .error e
      | .ok bs => .ok (.list [p, v] :: bs)

/-- Lines 218-231: apply a resolved callable head `fa` to the raw
argument expressions `args` in environment `env`.  Only an `Expression`
headed by the atom `lambda` is applicable: destructure it into
`(lambda, params, body)` (ValueError if not three items), assert `params`
and `body` are `Expression`s, assert the arity matches, bind the
evaluated arguments on top of `env.items`, evaluate the body there and
pair the result with the *original* `env`.  A non-`lambda` `Expression`
head makes the function *return* (not raise) a `LispRunTimeError`
object (line 231); an `Atom` head reaches the `raise` on line 233.
`ev2 code env` is Python's `eval(code, env)`. -/
def applyHead (ev2 : Sexp → Sexp → Except Err Sexp) (fa : Sexp) (args : List Sexp)
    (env : Sexp) : EvalRes :=
  match fa with
  | .atom _ => .err (.unknownCommand fa)
  | .list [] => .err .indexErr
  | .list (h :: tl) =>
    if h = .atom "lambda" then
      match tl with
      | [lamArgs, body] =>
        match lamArgs with
        | .atom _ => .err .assertFail
        | .list params =>
          match body with
          | .atom _ => .err .assertFail
          | .list _ =>
            if params.length = args.length then
              match buildArgEnv (fun s => ev2 s env) params args with
              | .error e => .err e
              | .ok argEnv =>
                match env with
                | .atom _ => .err .attrErr
                | .list envItems =>
                  match ev2 body (.list (argEnv ++ envItems)) with
                  | .error e => .err e
                  | .ok r => .ok r env
            else .err .assertFail
      | _ => .err .valueErr
    else .retExn fa

/-- `eval_env(code, env)` (lines 140-233), with explicit fuel for the
host recursion.  An `Atom` is looked up; an empty `Expression` hits
`code.items[0]` (IndexError); otherwise the head is dispatched through
the special-form `if` chain in source order (quote, atom, eq, car, cdr,
cons, cond, label), then an `Atom` head is resolved through `lookup`
(lines 214-216) and the result applied by `applyHead`. -/
def evalEnv : Nat → Sexp → Sexp → EvalRes
  | 0, _, _ => .err .fuelOut
  | fuel+1, code, env =>
    match code with
    | .atom _ =>
      match lookup code env with
      | .error e => .err e
      | .ok v => .ok v env
    | .list [] => .err .indexErr
    | .list (firstArg :: args) =>
      if firstArg = .atom "quote" then
        match args with
        | [x] => .ok x env
        | _ => .err .assertFail
      else if firstArg = .atom "atom" then
        match args with
        | [x] =>
          match unpackEval (evalEnv fuel x env) with
          | .error e => .err e
          | .ok (.atom _) => .ok (.atom "t") env
          | .ok (.list []) => .ok (.atom "t") env
          | .ok (.list (_ :: _)) => .ok (.list []) env
        | _ => .err .assertFail
      else if firstArg = .atom "eq" then
        match args with
        | [x, y] =>
          match unpackEval (evalEnv fuel x env) with
          | .error e => .err e
          | .ok v1 =>
            match unpackEval (evalEnv fuel y env) with
            | .error e => .err e
            | .ok v2 =>
              match v1 with
              | .atom _ => if v1 = v2 then .ok (.atom "t") env else .ok (.list []) env
              | .list [] => if v1 = v2 then .ok (.atom "t") env else .ok (.list []) env
              | .list (_ :: _) => .ok (.list []) env
        | _ => .err .assertFail
      else if firstArg = .atom "car" then
        match args with
        | [x] =>
          match unpackEval (evalEnv fuel x env) with
          | .error e => .err e
          | .ok (.atom _) => .err .assertFail
          | .ok (.list []) => .err .indexErr
          | .ok (.list (h :: _)) => .ok h env
        | _ => .err .assertFail
      else if firstArg = .atom "cdr" then
        match args with
        | [x] =>
          match unpackEval (evalEnv fuel x env) with
          | .error e => .err e
          | .ok (.atom _) => .err .assertFail
          | .ok (.list items) => .ok (.list items.tail) env
        | _ => .err .assertFail
      else if firstArg = .atom "cons" then
        match args with
        | [x, y] =>
          match unpackEval (evalEnv fuel x env) with
          | .error e => .err e
          | .ok v1 =>
            match unpackEval (evalEnv fuel y env) with
            | .error e => .err e
            | .ok v2 =>
              match v1 with
              | .list _ => .err .assertFail
              | .atom _ =>
                match v2 with
                | .atom _ => .err .assertFail
                | .list items => .ok (.list (v1 :: items)) env
        | _ => .err .assertFail
      else if firstArg = .atom "cond" then
        condLoop (fun s => unpackEval (evalEnv fuel s env)) env args
      else if firstArg = .atom "label" then
        match args with
        | [name, value] =>
          match name with
          | .list _ => .err .assertFail
          | .atom _ =>
            match env with
            | .atom _ => .err .attrErr
            | .list envItems => .ok (.list []) (.list (.list [name, value] :: envItems))
        | _ => .err .assertFail
      else
        match firstArg with
        | .list _ => applyHead (fun s e => unpackEval (evalEnv fuel s e)) firstArg args env
        | .atom _ =>
          match lookup firstArg env with
          | .error e => .err e
          | .ok fa => applyHead (fun s e => unpackEval (evalEnv fuel s e)) fa args env

/-- `eval(code, env)` (lines 125-128): run `eval_env` and keep only the
result, discarding the environment it produced. -/
def eval (fuel : Nat) (code env : Sexp) : Except Err Sexp :=
  unpackEval (evalEnv fuel code env)

/-- The quote character, written out of a character literal. -/
def quoteChar : Char := Char.ofNat 39

/-- The single-character quote token. -/
def quoteTok : String := String.mk [quoteChar]

/-- Python's `\s` over the ASCII range (regex whitespace class in
`tokenize` and in `Atom.__init__`). -/
def pyIsSpace (c : Char) : Bool :=
  c = ' ' || c = '\t' || c = '\n' || c = '\r' || c = Char.ofNat 11 || c = Char.ofNat 12

/-- Emit the pending symbol run as a token, if non-empty. -/
def flushTok (acc : List Char) : List String :=
  match acc with
  | [] => []
  | _ => [String.mk acc.reverse]

/-- The scan underlying `re.findall(r"[()']|[^()'\s]+", source)`
(line 23): parens and the quote mark are single-character tokens,
whitespace separates, and any other maximal run of characters is one
token.  `acc` holds the reversed current run. -/
def tokenizeAux : List Char → List Char → List String
  | acc, [] => flushTok acc
  | acc, c :: cs =>
    if c = '(' || c = ')' || c = quoteChar then
      flushTok acc ++ (String.mk [c] :: tokenizeAux [] cs)
    else if pyIsSpace c then
      flushTok acc ++ tokenizeAux [] cs
    else
      tokenizeAux (c :: acc) cs

/-- `tokenize(source)` (lines 16-24). -/
def tokenize (s : String) : List String :=
  tokenizeAux [] s.data

/-- The `assert re.match(r'[^()\s]', value)` in `Atom.__init__`
(line 33): the token must be non-empty and not start with a paren or
whitespace. -/
def atomOk (t : String) : Bool :=
  match t.data with
  | [] => false
  | c :: _ => !(c = '(' || c = ')' || pyIsSpace c)

/-- `parse_body(tokens)` (lines 61-98), with fuel for the host
recursion.  Each loop turn takes a token; a quote mark consumes the next
token too (ValueError if there is none, assertion failure if it is a
close paren) and wraps the following single item in `(quote _)`.  A
non-paren token becomes an `Atom`; a close paren ends the body returning
the remaining tokens; an open paren recursively parses a nested body.
End of input also ends the body, with no tokens left over. -/
def parseBody : Nat → List String → Except Err (List Sexp × List String)
  | 0, _ => .error .fuelOut
  | _ + 1, [] => .ok ([], [])
  | fuel + 1, tok :: rest0 =>
    let step : Except Err (Bool × String × List String) :=
      if tok = quoteTok then
        match rest0 with
        | [] => .error .valueErr
        | t :: r => if t = ")" then .error .assertFail else .ok (true, t, r)
      else .ok (false, tok, rest0)
    match step with
    | .error e => .error e
    | .ok (quoted, token, rest) =>
      if token = ")" then .ok ([], rest)
      else if token = "(" then
        match parseBody fuel rest with
        | .error e => .error e
        | .ok (parsed, rest2) =>
          let expr := if quoted then Sexp.list [.atom "quote", .list parsed] else .list parsed
          match parseBody fuel rest2 with
          | .error e => .error e
          | .ok (items, rest3) => .ok (expr :: items, rest3)
      else
        if atomOk token then
          let a := if quoted then Sexp.list [.atom "quote", .atom token] else Sexp.atom token
          match parseBody fuel rest with
          | .error e => .error e
          | .ok (items, rest2) => .ok (a :: items, rest2)
        else .error .assertFail

/-- `parse_expression(tokens, allow_multi=True)` (lines 101-110):
`LispParseError` on empty input, `parse_body` on the whole token list,
assert no tail remains, return all parsed items. -/
def parseExpressionMulti (tokens : List String) : Except Err (List Sexp) :=
  match tokens with
  | [] => .error .lispParseEmpty
  | _ =>
    match parseBody (tokens.length + 1) tokens with
    | .error e => .error e
    | .ok (parsed, tail) =>
      match tail with
      | [] => .ok parsed
      | _ => .error .assertFail

/-- `parse_expression(tokens)` with the default `allow_multi=False`
(lines 101-114): additionally assert that exactly one item was parsed
and return it. -/
def parseExpression (tokens : List String) : Except Err Sexp :=
  match parseExpressionMulti tokens with
  | .error e => .error e
  | .ok [x] => .ok x
  | .ok _ => .error .assertFail

/-- `parse(source)` (lines 117-119). -/
def parseStr (source : String) : Except Err Sexp :=
  parseExpression (tokenize source)

/-- `parse(source, allow_multi=True)` (lines 117-119). -/
def parseStrMulti (source : String) : Except Err (List Sexp) :=
  parseExpressionMulti (tokenize source)

/-- The loop of `multi_eval` (lines 241-243): thread the environment
through the commands with `eval_env`, keeping the last result (initially
the empty list).  Tuple-unpacking a returned exception object is a host
TypeError, as in `eval`. -/
def multiEvalLoop (fuel : Nat) : List Sexp → Sexp → Sexp → Except Err (Sexp × Sexp)
  | [], result, env => .ok (result, env)
  | c :: cs, _, env =>
    match evalEnv fuel c env with
    | .ok v e => multiEvalLoop fuel cs v e
    | .retExn _ => .error .typeErr
    | .err e => .error e

/-- `multi_eval(code, env)` (lines 236-243): parse the source with
`allow_multi=True` and fold `eval_env` over the commands, returning the
last result together with the threaded environment. -/
def multiEval (fuel : Nat) (source : String) (env : Sexp) : Except Err (Sexp × Sexp) :=
  match parseStrMulti source with
  | .error e => .error e
  | .ok cmds => multiEvalLoop fuel cmds (.list []) env

/-- The eight special-form head names of the dispatch chain
(lines 150-211). -/
def isSpecialName (f : String) : Bool :=
  f == "quote" || f == "atom" || f == "eq" || f == "car" || f == "cdr"
    || f == "cons" || f == "cond" || f == "label"

/-! ## Step lemmas -/

theorem evalEnv_cond (fuel : Nat) (env : Sexp) (pairs : List Sexp) :
    evalEnv (fuel+1) (.list (.atom "cond" :: pairs)) env
      = condLoop (fun s => unpackEval (evalEnv fuel s env)) env pairs := rfl

theorem evalEnv_listHead (fuel : Nat) (items args : List Sexp) (env : Sexp) :
    evalEnv (fuel+1) (.list (.list items :: args)) env
      = applyHead (fun s e => unpackEval (evalEnv fuel s e)) (.list items) args env := rfl

theorem eval_unpack (fuel : Nat) (code env : Sexp) :
    eval fuel code env = unpackEval (evalEnv fuel code env) := rfl

theorem evalEnv_car (fuel : Nat) (x env : Sexp) :
    evalEnv (fuel+1) (.list [.atom "car", x]) env
      = match unpackEval (evalEnv fuel x env) with
        | .error e => .err e
        | .ok (.atom _) => .err .assertFail
        | .ok (.list []) => .err .indexErr
        | .ok (.list (h :: _)) => .ok h env := rfl

theorem evalEnv_cdr (fuel : Nat) (x env : Sexp) :
    evalEnv (fuel+1) (.list [.atom "cdr", x]) env
      = match unpackEval (evalEnv fuel x env) with
        | .error e => .err e
        | .ok (.atom _) => .err .assertFail
        | .ok (.list items) => .ok (.list items.tail) env := rfl

theorem evalEnv_cons (fuel : Nat) (x y env : Sexp) :
    evalEnv (fuel+1) (.list [.atom "cons", x, y]) env
      = match unpackEval (evalEnv fuel x env) with
        | .error e => .err e
        | .ok v1 =>
          match unpackEval (evalEnv fuel y env) with
          | .error e => .err e
          | .ok v2 =>
            match v1 with
            | .list _ => .err .assertFail
            | .atom _ =>
              match v2 with
              | .atom _ => .err .assertFail
              | .list items => .ok (.list (v1 :: items)) env := rfl

theorem applyHead_lambda (ev2 : Sexp → Sexp → Except Err Sexp)
    (params bodyItems args : List Sexp) (env : Sexp) :
    applyHead ev2 (.list [.atom "lambda", .list params, .list bodyItems]) args env
      = if params.length = args.length then
          (match buildArgEnv (fun s => ev2 s env) params args with
           | .error e => .err e
           | .ok argEnv =>
             match env with
             | .atom _ => .err .attrErr
             | .list envItems =>
               match ev2 (.list bodyItems) (.list (argEnv ++ envItems)) with
               | .error e => .err e
               | .ok r => .ok r env)
        else .err .assertFail := rfl

/-! ## Claims -/

/-- C1 counterexample: in `(cond ((quote ()) bad) ((quote t) (quote ok)))`
the first predicate is false, so by the claim the result expression `bad`
of that non-chosen branch is never evaluated and the whole `cond` yields
the atom `ok`; the code however evaluates `bad` and aborts with its
unbound-atom error. -/
theorem C1_counterexample :
    evalEnv 3 (.list [.atom "cond",
        .list [.list [.atom "quote", .list []], .atom "bad"],
        .list [.list [.atom "quote", .atom "t"], .list [.atom "quote", .atom "ok"]]]) (.list [])
      = .err (.unboundAtom (.atom "bad"))
    ∧ evalEnv 3 (.list [.atom "cond",
        .list [.list [.atom "quote", .list []], .atom "bad"],
        .list [.list [.atom "quote", .atom "t"], .list [.atom "quote", .atom "ok"]]]) (.list [])
      ≠ .ok (.atom "ok") (.list []) :=
  ⟨rfl, by decide⟩

/-- C1 (amended): `cond` examines its branches left to right and, for
every branch it examines, evaluates both the predicate *and* the result
expression; it returns the result value of the first branch whose
predicate value equals `t`, leaving all later branches unevaluated, and
a `cond` with no true predicate yields the empty list.  An error while
evaluating the result expression of an examined branch propagates even
when that branch's predicate is false. -/
theorem C1_theorem (fuel : Nat) (env p r : Sexp) (rest : List Sexp) (vp : Sexp)
    (hp : eval fuel p env = .ok vp) :
    (vp = .atom "t" → ∀ vr, eval fuel r env = .ok vr →
      evalEnv (fuel+1) (.list (.atom "cond" :: .list [p, r] :: rest)) env = .ok vr env)
    ∧ (∀ e, eval fuel r env = .error e →
      evalEnv (fuel+1) (.list (.atom "cond" :: .list [p, r] :: rest)) env = .err e)
    ∧ (vp ≠ .atom "t" → ∀ vr, eval fuel r env = .ok vr →
      evalEnv (fuel+1) (.list (.atom "cond" :: .list [p, r] :: rest)) env
        = condLoop (fun s => unpackEval (evalEnv fuel s env)) env rest)
    ∧ evalEnv (fuel+1) (.list [.atom "cond"]) env = .ok (.list []) env := by
  rw [eval_unpack] at hp
  refine ⟨?_, ?_, ?_, rfl⟩
  · intro hvp vr hr
    rw [eval_unpack] at hr
    rw [evalEnv_cond]
    simp only [condLoop, hp, hr, hvp]
    exact if_pos trivial
  · intro e hr
    rw [eval_unpack] at hr
    rw [evalEnv_cond]
    simp only [condLoop, hp, hr]
  · intro hvp vr hr
    rw [eval_unpack] at hr
    rw [evalEnv_cond]
    simp only [condLoop, hp, hr, if_neg hvp]

/-- C1 witness: a `cond` whose first predicate is `t` returns that
branch's result. -/
theorem C1_witness :
    evalEnv 2 (.list [.atom "cond",
        .list [.list [.atom "quote", .atom "t"], .list [.atom "quote", .atom "yes"]]]) (.list [])
      = .ok (.atom "yes") (.list []) :=
  (C1_theorem 1 (.list []) (.list [.atom "quote", .atom "t"])
      (.list [.atom "quote", .atom "yes"]) [] (.atom "t") rfl).1 rfl (.atom "yes") rfl

/-- C2 counterexample: `(label l (a))` in the empty environment succeeds
and binds `l` to the raw form `(a)`; evaluating `(a)` itself fails with
an unbound-atom error, so the stored binding cannot be the evaluated
value and the value expression was not evaluated at binding time, contrary
to the claim. -/
theorem C2_counterexample :
    evalEnv 3 (.list [.atom "label", .atom "l", .list [.atom "a"]]) (.list [])
      = .ok (.list []) (.list [.list [.atom "l", .list [.atom "a"]]])
    ∧ lookup (.atom "l") (.list [.list [.atom "l", .list [.atom "a"]]])
      = .ok (.list [.atom "a"])
    ∧ eval 3 (.list [.atom "a"]) (.list []) = .error (.unboundAtom (.atom "a")) :=
  ⟨rfl, rfl, rfl⟩

/-- C2 (amended): `(label name value)` does not evaluate `value`; it
returns the empty list together with `env` extended by a binding of
`name` to the *raw, unevaluated* `value` form, and a later lookup (or
atom evaluation) of `name` in the threaded environment returns that raw
form. -/
theorem C2_theorem (fuel : Nat) (n : String) (value : Sexp) (items : List Sexp) :
    evalEnv (fuel+1) (.list [.atom "label", .atom n, value]) (.list items)
      = .ok (.list []) (.list (.list [.atom n, value] :: items))
    ∧ lookup (.atom n) (.list (.list [.atom n, value] :: items)) = .ok value
    ∧ evalEnv (fuel+1) (.atom n) (.list (.list [.atom n, value] :: items))
      = .ok value (.list (.list [.atom n, value] :: items)) := by
  have hlook : lookup (.atom n) (.list (.list [.atom n, value] :: items)) = .ok value := by
    simp [lookup, lookupPairs]
  refine ⟨rfl, hlook, ?_⟩
  simp only [evalEnv, hlook]

/-- C3 counterexample: the identity application `((lambda (x) x) (quote a))`
has matching arity, yet the code raises an assertion error instead of
evaluating the argument and the body: `assert isinstance(body, Expression)`
(line 222) rejects every lambda whose body is an atom, a requirement the
claim does not contain. -/
theorem C3_counterexample :
    evalEnv 3 (.list [.list [.atom "lambda", .list [.atom "x"], .atom "x"],
        .list [.atom "quote", .atom "a"]]) (.list [])
      = .err .assertFail
    ∧ evalEnv 3 (.list [.list [.atom "lambda", .list [.atom "x"], .atom "x"],
        .list [.atom "quote", .atom "a"]]) (.list [])
      ≠ .ok (.atom "a") (.list []) :=
  ⟨rfl, by decide⟩

/-- C3 (amended): applying `((lambda (x1 ... xn) body) a1 ... an)` with
matching arity, where the parameter list and the body are themselves
list expressions (the code asserts both), evaluates each argument in the
caller's environment (that is what `buildArgEnv` with the caller's `env`
does), evaluates the body in the argument bindings layered on top of the
caller's environment items, and pairs the body's value with the
*original, unextended* caller environment, so the parameter bindings are
never visible in the environment returned to the caller. -/
theorem C3_theorem (fuel : Nat) (params bodyItems argExprs envItems argEnv : List Sexp)
    (hlen : params.length = argExprs.length)
    (hargs : buildArgEnv (fun s => eval fuel s (.list envItems)) params argExprs = .ok argEnv) :
    ∀ r, eval fuel (.list bodyItems) (.list (argEnv ++ envItems)) = .ok r →
      evalEnv (fuel+1)
          (.list (.list [.atom "lambda", .list params, .list bodyItems] :: argExprs))
          (.list envItems)
        = .ok r (.list envItems) := by
  intro r hbody
  simp only [eval_unpack] at hargs hbody
  rw [evalEnv_listHead, applyHead_lambda, if_pos hlen]
  simp only [hargs, hbody]

/-- C3 witness: `((lambda (x) (cons x (quote (b c)))) (quote z))`
evaluates to `(z b c)` and leaves the empty caller environment
untouched. -/
theorem C3_witness :
    evalEnv 3 (.list [.list [.atom "lambda", .list [.atom "x"],
        .list [.atom "cons", .atom "x", .list [.atom "quote", .list [.atom "b", .atom "c"]]]],
        .list [.atom "quote", .atom "z"]]) (.list [])
      = .ok (.list [.atom "z", .atom "b", .atom "c"]) (.list []) :=
  C3_theorem 2 [.atom "x"]
    [.atom "cons", .atom "x", .list [.atom "quote", .list [.atom "b", .atom "c"]]]
    [.list [.atom "quote", .atom "z"]] [] [.list [.atom "x", .atom "z"]] rfl rfl
    (.list [.atom "z", .atom "b", .atom "c"]) rfl

/-- C4: for `((f) b)` — a list whose head is itself a list not headed by
`lambda` — `eval_env` *returns* the `LispRunTimeError` object as its
value instead of raising it (line 231 says `return` where a `raise` was
intended), so the caller `eval`, tuple-unpacking that non-pair value,
crashes with a host TypeError; the `BadCallableError` the claim
describes is never raised. -/
theorem C4_theorem :
    evalEnv 1 (.list [.list [.atom "f"], .atom "b"]) (.list []) = .retExn (.list [.atom "f"])
    ∧ eval 1 (.list [.list [.atom "f"], .atom "b"]) (.list []) = .error .typeErr :=
  ⟨rfl, rfl⟩

/-- C5 counterexample: `(car (quote ()))` does not return the empty
list; `value.items[0]` on the empty list raises a host IndexError. -/
theorem C5_counterexample :
    evalEnv 2 (.list [.atom "car", .list [.atom "quote", .list []]]) (.list [])
      = .err .indexErr
    ∧ evalEnv 2 (.list [.atom "car", .list [.atom "quote", .list []]]) (.list [])
      ≠ .ok (.list []) (.list []) :=
  ⟨rfl, by decide⟩

/-- C5 (amended): when `x` evaluates to a list, `(car x)` returns its
first element but raises an IndexError when the list is empty, while
`(cdr x)` returns the list without its first element, which on the empty
list is the empty list. -/
theorem C5_theorem (fuel : Nat) (env x : Sexp) (items : List Sexp)
    (hx : eval fuel x env = .ok (.list items)) :
    (items = [] → evalEnv (fuel+1) (.list [.atom "car", x]) env = .err .indexErr)
    ∧ (∀ h t, items = h :: t → evalEnv (fuel+1) (.list [.atom "car", x]) env = .ok h env)
    ∧ evalEnv (fuel+1) (.list [.atom "cdr", x]) env = .ok (.list items.tail) env := by
  rw [eval_unpack] at hx
  refine ⟨?_, ?_, ?_⟩
  · intro hnil
    subst hnil
    rw [evalEnv_car, hx]
  · intro h t hcons
    subst hcons
    rw [evalEnv_car, hx]
  · rw [evalEnv_cdr, hx]

/-- C5 witness: `(car (quote ()))` raises IndexError while
`(cdr (quote ()))` returns the empty list. -/
theorem C5_witness :
    evalEnv 2 (.list [.atom "car", .list [.atom "quote", .list []]]) (.list [])
      = .err .indexErr
    ∧ evalEnv 2 (.list [.atom "cdr", .list [.atom "quote", .list []]]) (.list [])
      = .ok (.list []) (.list []) :=
  ⟨(C5_theorem 1 (.list []) (.list [.atom "quote", .list []]) [] rfl).1 rfl,
   (C5_theorem 1 (.list []) (.list [.atom "quote", .list []]) [] rfl).2.2⟩

/-- C6: the source of two quote marks followed by `a` tokenizes to the
three tokens quote-mark, quote-mark, `a`, but `parse_body` treats the
second quote mark as the quoted *token* (the TODO on line 77 records
that multiple quotes in a row are not handled), producing the two items
`(quote <quote-mark-atom>)` and `a`, so the single-expression parse
fails with an assertion error instead of producing
`(quote (quote a))`; single quoting, by contrast, works. -/
theorem C6_theorem :
    tokenize (String.mk (quoteChar :: quoteChar :: "a".data)) = [quoteTok, quoteTok, "a"]
    ∧ parseStr (String.mk (quoteChar :: quoteChar :: "a".data)) = .error .assertFail
    ∧ parseStrMulti (String.mk (quoteChar :: quoteChar :: "a".data))
        = .ok [.list [.atom "quote", .atom quoteTok], .atom "a"]
    ∧ parseStr (String.mk (quoteChar :: "a".data)) = .ok (.list [.atom "quote", .atom "a"]) :=
  ⟨rfl, rfl, rfl, rfl⟩

/-- C7 counterexample: an unclosed open paren and a stray trailing close
paren are not parse errors — `parse_expression` silently returns an
expression for both (`parse_body` treats end of input as closing every
open body, and a close paren at top level just ends the body with the
tokens before it as the result). -/
theorem C7_counterexample :
    parseExpression ["(", "a"] = .ok (.list [.atom "a"])
    ∧ parseExpression ["a", ")"] = .ok (.atom "a") :=
  ⟨rfl, rfl⟩

/-- C7 (amended): empty input fails with `LispParseError`; tokens after
a stray top-level close paren fail (assertion on the tail), as do
multiple top-level expressions (assertion on the parsed count); but
unmatched parentheses as such are not errors: an unclosed open paren is
silently closed at end of input and a single stray trailing close paren
is silently ignored, each returning an expression. -/
theorem C7_theorem :
    parseExpression [] = .error .lispParseEmpty
    ∧ parseExpressionMulti [] = .error .lispParseEmpty
    ∧ parseExpression ["a", ")", "b"] = .error .assertFail
    ∧ parseExpression ["a", "b"] = .error .assertFail
    ∧ parseExpression ["(", "a"] = .ok (.list [.atom "a"])
    ∧ parseExpression ["a", ")"] = .ok (.atom "a") :=
  ⟨rfl, rfl, rfl, rfl, rfl, rfl⟩

/-- C8 counterexample: `(cons (quote (a)) (quote ()))` does not succeed:
`cons` asserts that its first evaluated argument is an `Atom`
(line 190), so prepending a non-empty list fails with an assertion
error rather than returning `((a))`. -/
theorem C8_counterexample :
    evalEnv 2 (.list [.atom "cons", .list [.atom "quote", .list [.atom "a"]],
        .list [.atom "quote", .list []]]) (.list [])
      = .err .assertFail
    ∧ evalEnv 2 (.list [.atom "cons", .list [.atom "quote", .list [.atom "a"]],
        .list [.atom "quote", .list []]]) (.list [])
      ≠ .ok (.list [.list [.atom "a"]]) (.list []) :=
  ⟨rfl, by decide⟩

/-- C8 (amended): `(cons a b)` evaluates both sub-expressions and
requires `a`'s value to be an *atom* (not an arbitrary value) and `b`'s
value to be a list; it then prepends `a`'s value, and for all atoms `X`
and lists `L`, `car` of the resulting list is `X` and `cdr` of it
is `L`. -/
theorem C8_theorem (fuel : Nat) (env a b va : Sexp) (items : List Sexp)
    (ha : eval fuel a env = .ok va)
    (hb : eval fuel b env = .ok (.list items)) :
    (∀ s, va = .atom s →
      evalEnv (fuel+1) (.list [.atom "cons", a, b]) env = .ok (.list (va :: items)) env)
    ∧ (∀ l, va = .list l →
      evalEnv (fuel+1) (.list [.atom "cons", a, b]) env = .err .assertFail)
    ∧ (∀ g, evalEnv (g+2) (.list [.atom "car", .list [.atom "quote", .list (va :: items)]]) env
        = .ok va env)
    ∧ (∀ g, evalEnv (g+2) (.list [.atom "cdr", .list [.atom "quote", .list (va :: items)]]) env
        = .ok (.list items) env) := by
  rw [eval_unpack] at ha hb
  refine ⟨?_, ?_, ?_, ?_⟩
  · intro s hs
    subst hs
    rw [evalEnv_cons, ha, hb]
  · intro l hl
    subst hl
    rw [evalEnv_cons, ha, hb]
  · intro g
    rw [evalEnv_car]
    rfl
  · intro g
    rw [evalEnv_cdr]
    rfl

/-- C8 witness: `(cons (quote a) (quote (b)))` yields `(a b)`, whose
`car` is `a` and whose `cdr` is `(b)`. -/
theorem C8_witness :
    evalEnv 2 (.list [.atom "cons", .list [.atom "quote", .atom "a"],
        .list [.atom "quote", .list [.atom "b"]]]) (.list [])
      = .ok (.list [.atom "a", .atom "b"]) (.list [])
    ∧ evalEnv 2 (.list [.atom "car", .list [.atom "quote", .list [.atom "a", .atom "b"]]]) (.list [])
      = .ok (.atom "a") (.list [])
    ∧ evalEnv 2 (.list [.atom "cdr", .list [.atom "quote", .list [.atom "a", .atom "b"]]]) (.list [])
      = .ok (.list [.atom "b"]) (.list []) :=
  ⟨(C8_theorem 1 (.list []) (.list [.atom "quote", .atom "a"])
      (.list [.atom "quote", .list [.atom "b"]]) (.atom "a") [.atom "b"] rfl rfl).1 "a" rfl,
   (C8_theorem 1 (.list []) (.list [.atom "quote", .atom "a"])
      (.list [.atom "quote", .list [.atom "b"]]) (.atom "a") [.atom "b"] rfl rfl).2.2.1 0,
   (C8_theorem 1 (.list []) (.list [.atom "quote", .atom "a"])
      (.list [.atom "quote", .list [.atom "b"]]) (.atom "a") [.atom "b"] rfl rfl).2.2.2 0⟩

/-- C9 counterexample: with `REST` bound to the atom `cdr`, the call
`(REST (quote (a b)))` does not behave as `(cdr (quote (a b)))` — the
looked-up head is an `Atom`, which the post-lookup code does not
re-dispatch through the special-form table; it reaches the final
`raise LispRunTimeError('Unknown command: ...')` (line 233), while the
direct `cdr` call returns `(b)`. -/
theorem C9_counterexample :
    evalEnv 3 (.list [.atom "REST", .list [.atom "quote", .list [.atom "a", .atom "b"]]])
        (.list [.list [.atom "REST", .atom "cdr"]])
      = .err (.unknownCommand (.atom "cdr"))
    ∧ evalEnv 3 (.list [.atom "cdr", .list [.atom "quote", .list [.atom "a", .atom "b"]]])
        (.list [.list [.atom "REST", .atom "cdr"]])
      = .ok (.list [.atom "b"]) (.list [.list [.atom "REST", .atom "cdr"]]) :=
  ⟨rfl, rfl⟩

/-- C9 (amended): a list whose head is a non-special-form atom has that
head resolved through the environment exactly once; when the bound value
is a *list* the evaluation continues exactly as if the head had been
replaced by that value (so lambda-headed lists are applied and other
lists hit the bad-callable return), but when the bound value is an
*atom* — even one naming a special form such as `cdr` — evaluation
raises the unknown-command error instead of re-dispatching. -/
theorem C9_theorem (fuel : Nat) (f : String) (env v : Sexp) (args : List Sexp)
    (hf : isSpecialName f = false)
    (hl : lookup (.atom f) env = .ok v) :
    (∀ items, v = .list items →
      evalEnv (fuel+1) (.list (.atom f :: args)) env
        = evalEnv (fuel+1) (.list (v :: args)) env)
    ∧ (∀ s, v = .atom s →
      evalEnv (fuel+1) (.list (.atom f :: args)) env = .err (.unknownCommand v)) := by
  simp only [isSpecialName, Bool.or_eq_false_iff, beq_eq_false_iff_ne, ne_eq] at hf
  obtain ⟨⟨⟨⟨⟨⟨⟨h1, h2⟩, h3⟩, h4⟩, h5⟩, h6⟩, h7⟩, h8⟩ := hf
  have hstep : evalEnv (fuel+1) (.list (.atom f :: args)) env
      = match lookup (.atom f) env with
        | .error e => .err e
        | .ok fa => applyHead (fun s e => unpackEval (evalEnv fuel s e)) fa args env := by
    simp only [evalEnv]
    rw [if_neg (fun h => h1 (Sexp.atom.inj h)), if_neg (fun h => h2 (Sexp.atom.inj h)),
      if_neg (fun h => h3 (Sexp.atom.inj h)), if_neg (fun h => h4 (Sexp.atom.inj h)),
      if_neg (fun h => h5 (Sexp.atom.inj h)), if_neg (fun h => h6 (Sexp.atom.inj h)),
      if_neg (fun h => h7 (Sexp.atom.inj h)), if_neg (fun h => h8 (Sexp.atom.inj h))]
  refine ⟨?_, ?_⟩
  · intro items hv
    subst hv
    rw [hstep, hl, evalEnv_listHead]
  · intro s hv
    subst hv
    rw [hstep, hl]
    rfl

/-- C9 witness: with `g` bound to the plain atom `foo`, evaluating
`(g)` raises the unknown-command error on `foo`. -/
theorem C9_witness :
    evalEnv 1 (.list [.atom "g"]) (.list [.list [.atom "g", .atom "foo"]])
      = .err (.unknownCommand (.atom "foo")) :=
  (C9_theorem 0 "g" (.list [.list [.atom "g", .atom "foo"]]) (.atom "foo") [] rfl rfl).2
    "foo" rfl

/-- C10: `eval` projects the value out of `eval_env`, discarding the
environment `eval_env` produced; in particular a `label` evaluated
through `eval` yields only the empty list, while the same `label`
through `eval_env` or through the `multi_eval` loop hands the extended
environment on, where it is observable by the following command. -/
theorem C10_theorem (fuel : Nat) (n : String) (value c2 r0 : Sexp) (envItems : List Sexp) :
    (∀ g (code env v e2 : Sexp), evalEnv g code env = .ok v e2 → eval g code env = .ok v)
    ∧ eval (fuel+1) (.list [.atom "label", .atom n, value]) (.list envItems) = .ok (.list [])
    ∧ evalEnv (fuel+1) (.list [.atom "label", .atom n, value]) (.list envItems)
        = .ok (.list []) (.list (.list [.atom n, value] :: envItems))
    ∧ multiEvalLoop (fuel+1) [.list [.atom "label", .atom n, value], c2] r0 (.list envItems)
        = multiEvalLoop (fuel+1) [c2] (.list []) (.list (.list [.atom n, value] :: envItems)) := by
  refine ⟨?_, rfl, rfl, ?_⟩
  · intro g code env v e2 h
    rw [eval_unpack, h]
    rfl
  · show (match evalEnv (fuel+1) (.list [.atom "label", .atom n, value]) (.list envItems) with
      | .ok v e => multiEvalLoop (fuel+1) [c2] v e
      | .retExn _ => .error .typeErr
      | .err e => .error e) = _
    rfl

/-- C10 witness: `eval` of `(quote a)` returns just the value `a`. -/
theorem C10_witness :
    eval 1 (.list [.atom "quote", .atom "a"]) (.list []) = .ok (.atom "a") :=
  (C10_theorem 0 "n" (.list []) (.list []) (.list []) []).1 1
    (.list [.atom "quote", .atom "a"]) (.list []) (.atom "a") (.list []) rfl

end Lisp
